import Mathlib

/-!
Verification of the recipe-app-api request-handling layer.

The development embeds the Python sources of the repository
(app/recipe/filters.py, app/recipe/views.py, app/user/views.py,
app/user/urls.py) as executable Lean definitions over list-based tables.
Django querysets become lists of rows; a many-to-many filter joins one row
per matching related object, and a queryset marked distinct() is
deduplicated once, on the final row set, exactly as SQL DISTINCT applies to
the whole query.  A handler that can raise an unhandled Python exception is
embedded with an Option result, none standing for the exception.
-/

/-- Whitespace recognised when stripping a string. -/
def isSpaceChar (c : Char) : Bool :=
  c == ' ' || c == '\t' || c == '\n' || c == '\r'

/-- Strip whitespace from both ends of a character list. -/
def trimChars (l : List Char) : List Char :=
  ((l.dropWhile isSpaceChar).reverse.dropWhile isSpaceChar).reverse

/-- Read a digit string as a number. -/
def digitsToNat (l : List Char) : Nat :=
  l.foldl (fun acc c => acc * 10 + (c.toNat - 48)) 0

/-- Python int() applied to a string: surrounding whitespace is stripped, an
optional single sign is allowed, then at least one digit is required.
Returns none exactly when the call raises ValueError. -/
def pyToInt? (s : String) : Option Int :=
  match trimChars s.data with
  | '-' :: core =>
      if !core.isEmpty && core.all Char.isDigit then some (-(digitsToNat core : Int))
      else none
  | '+' :: core =>
      if !core.isEmpty && core.all Char.isDigit then some (digitsToNat core : Int)
      else none
  | core =>
      if !core.isEmpty && core.all Char.isDigit then some (digitsToNat core : Int)
      else none

/-- Byte-order comparison of two character lists, the collation modelling
ORDER BY on a text column: true when the first sorts no later than the
second. -/
def lexLe : List Char → List Char → Bool
  | [], _ => true
  | _ :: _, [] => false
  | a :: as, b :: bs => if a == b then lexLe as bs else decide (a < b)

/-- Text-column comparison on strings. -/
def strLe (a b : String) : Bool := lexLe a.data b.data

/-- Whether the first list starts the second. -/
def leadsWith : List Char → List Char → Bool
  | [], _ => true
  | _ :: _, [] => false
  | p :: ps, c :: cs => p == c && leadsWith ps cs

/-- Whether pat occurs contiguously inside hay. -/
def subOf (hay pat : List Char) : Bool :=
  match hay with
  | [] => pat.isEmpty
  | _ :: rest => leadsWith pat hay || subOf rest pat

/-- Split a character list on commas. -/
def splitCommas : List Char → List (List Char)
  | [] => [[]]
  | c :: cs =>
      match splitCommas cs with
      | [] => if c == ',' then [[], []] else [[c]]
      | g :: gs => if c == ',' then [] :: g :: gs else (c :: g) :: gs

/-- Drop one leading minus sign from an ordering term. -/
def stripMinus (f : String) : String :=
  match f.data with
  | '-' :: rest => String.mk rest
  | _ => f

/-- Modelled from the spec: core/models.py is not under src/.  A user account
row: primary key, unique email used as the login identifier, display name. -/
structure User where
  id : Nat
  email : String
  name : String
deriving DecidableEq, Repr

/-- Modelled from the spec: core/models.py is not under src/.  A recipe row:
primary key, owner foreign key, title, description, time estimate, price,
optional image path, and the id sets of its many-to-many tag and ingredient
relations. -/
structure Recipe where
  id : Nat
  user : Nat
  title : String
  description : String
  time_minutes : Nat
  price : Nat
  image : Option String
  tags : List Nat
  ingredients : List Nat
deriving DecidableEq, Repr

/-- Modelled from the spec: core/models.py is not under src/.  A tag or
ingredient row: primary key, owner foreign key, name.  TagViewSet and
IngredientViewSet (and their no-mixin twins) differ only in which table
feeds the queryset, so one row type serves both. -/
structure Attr where
  id : Nat
  user : Nat
  name : String
deriving DecidableEq, Repr

/-- A many-to-many join: each row of the queryset is repeated once per
related row selected by rows, as the SQL join underlying a Django filter
across a many-to-many relation produces. -/
def joinRows {α β : Type} (qs : List α) (rows : α → List β) : List α :=
  qs.flatMap (fun a => (rows a).map (fun _ => a))

/-- OrderingFilter.remove_invalid_fields of rest_framework.filters: keep the
ordering terms whose field name, minus a leading minus sign, is one of the
view's ordering_fields. -/
def OrderingFilter.remove_invalid_fields (valid fields : List String) : List String :=
  fields.filter (fun f => valid.contains (stripMinus f))

/-- OrderingFilter.get_ordering of rest_framework.filters: split the ordering
query parameter on commas, drop the invalid terms, and fall back to the
view's default ordering when the parameter is absent or no term survives. -/
def OrderingFilter.get_ordering (valid dflt : List String) (param : Option String) : List String :=
  match param with
  | none => dflt
  | some p =>
      let fields := (splitCommas p.data).map (fun g => String.mk (trimChars g))
      let ordering := OrderingFilter.remove_invalid_fields valid fields
      if ordering.isEmpty then dflt else ordering

/-- Case-insensitive substring test, the icontains lookup SearchFilter
issues per search field. -/
def strContainsCI (hay pat : String) : Bool :=
  subOf (hay.data.map Char.toLower) (pat.data.map Char.toLower)

/-- SearchFilter of rest_framework.filters over search_fields = ['name'] (the
configuration of all four tag/ingredient viewsets): an absent or empty
search parameter leaves the queryset unchanged, otherwise keep the rows
whose name contains the term case-insensitively. -/
def SearchFilter.attrFilter (param : Option String) (qs : List Attr) : List Attr :=
  match param with
  | none => qs
  | some s => if s.isEmpty then qs else qs.filter (fun t => strContainsCI t.name s)

/-- Comparison on tag/ingredient rows for one ORDER BY term drawn from the
validated ordering fields id and name. -/
def attrKeyLe (field : String) (a b : Attr) : Bool :=
  match field with
  | "id" => decide (a.id ≤ b.id)
  | "-id" => decide (b.id ≤ a.id)
  | "name" => strLe a.name b.name
  | "-name" => strLe b.name a.name
  | _ => true

/-- Equality on tag/ingredient rows under one ORDER BY term. -/
def attrKeyEq (field : String) (a b : Attr) : Bool :=
  match field with
  | "id" => a.id == b.id
  | "-id" => a.id == b.id
  | "name" => a.name == b.name
  | "-name" => a.name == b.name
  | _ => true

/-- Lexicographic comparison for an ORDER BY clause over several terms. -/
def attrFieldsLe (fields : List String) (a b : Attr) : Bool :=
  match fields with
  | [] => true
  | f :: rest => if attrKeyEq f a b then attrFieldsLe rest a b else attrKeyLe f a b

/-- Apply an ORDER BY clause to a tag/ingredient row list. -/
def attrOrderBy (fields : List String) (qs : List Attr) : List Attr :=
  List.insertionSort (fun a b => attrFieldsLe fields a b = true) qs

/-- Comparison on recipe rows for one ORDER BY term.  The only field names
OrderingFilter can let through on RecipeViewSet are id and the concatenated
artifact handled in the ordering-fields theorems, so id is the one
orderable field. -/
def recipeKeyLe (field : String) (a b : Recipe) : Bool :=
  match field with
  | "id" => decide (a.id ≤ b.id)
  | "-id" => decide (b.id ≤ a.id)
  | _ => true

/-- Equality on recipe rows under one ORDER BY term. -/
def recipeKeyEq (field : String) (a b : Recipe) : Bool :=
  match field with
  | "id" => a.id == b.id
  | "-id" => a.id == b.id
  | _ => true

/-- Lexicographic comparison for an ORDER BY clause on recipe rows. -/
def recipeFieldsLe (fields : List String) (a b : Recipe) : Bool :=
  match fields with
  | [] => true
  | f :: rest => if recipeKeyEq f a b then recipeFieldsLe rest a b else recipeKeyLe f a b

/-- Apply an ORDER BY clause to a recipe row list. -/
def recipeOrderBy (fields : List String) (qs : List Recipe) : List Recipe :=
  List.insertionSort (fun a b => recipeFieldsLe fields a b = true) qs

/-- The class names defined at top level of app/recipe/filters.py. -/
def recipeFiltersClasses : List String := ["NumberInFilter", "RecipeFilter"]

/-- The attribute lookup views.py performs at import time for
filterset_class = my_filters.RecipeViewSetFilter on the filters module. -/
def RecipeViewSet.filterset_class : Option String :=
  recipeFiltersClasses.find? (fun n => n == "RecipeViewSetFilter")

/-- Field tags of RecipeFilter (filters.py): NumberInFilter on tags__id with
lookup_expr in.  The comma-separated parameter arrives here already split
into ids; the filter joins one row per matching tag of each recipe. -/
def RecipeFilter.tagsIn (ids : List Nat) (qs : List Recipe) : List Recipe :=
  joinRows qs (fun r => r.tags.filter (fun t => ids.contains t))

/-- Field ingredients of RecipeFilter (filters.py): NumberInFilter on
ingredients__id with lookup_expr in. -/
def RecipeFilter.ingredientsIn (ids : List Nat) (qs : List Recipe) : List Recipe :=
  joinRows qs (fun r => r.ingredients.filter (fun i => ids.contains i))

/-- RecipeFilter applied by DjangoFilterBackend: each supplied field filters
the queryset in turn, so supplying both parameters conjoins them. -/
def RecipeFilter.apply (tagIds ingIds : Option (List Nat)) (qs : List Recipe) : List Recipe :=
  let qs := match tagIds with | none => qs | some l => RecipeFilter.tagsIn l qs
  match ingIds with | none => qs | some l => RecipeFilter.ingredientsIn l qs

/-- RecipeViewSet.ordering_fields (views.py): the list literal
['id', 'time_minutes' 'price'] in which the adjacent Python string literals
concatenate into the single name time_minutesprice. -/
def RecipeViewSet.ordering_fields : List String := ["id", "time_minutesprice"]

/-- RecipeViewSet.ordering (views.py): the default ordering. -/
def RecipeViewSet.ordering : List String := ["-id"]

/-- RecipeViewSet.get_queryset (views.py): the row set of
queryset.filter(user=request.user).distinct() before the filter backends
run. -/
def RecipeViewSet.get_queryset (db : List Recipe) (u : Nat) : List Recipe :=
  (db.filter (fun r => r.user == u)).dedup

/-- The recipe list body for a request carrying only the tags and
ingredients parameters: user scoping from get_queryset, then RecipeFilter
via DjangoFilterBackend, the distinct() flag deduplicating the final row
set, and the default ordering from OrderingFilter. -/
def RecipeViewSet.list_rows (db : List Recipe) (u : Nat)
    (tagIds ingIds : Option (List Nat)) : List Recipe :=
  let qs := db.filter (fun r => r.user == u)
  let qs := RecipeFilter.apply tagIds ingIds qs
  recipeOrderBy RecipeViewSet.ordering qs.dedup

/-- The parse both tag/ingredient get_queryset bodies start with:
bool(int(request.query_params.get('assigned_only', 0))).  none models the
unhandled ValueError escaping from int(). -/
def parseAssignedOnly (param : Option String) : Option Bool :=
  match param with
  | none => some false
  | some v => (pyToInt? v).map (fun n => decide (n ≠ 0))

/-- The join behind queryset.filter(recipe__isnull=False): one row per
recipe the tag/ingredient is attached to.  attached projects a recipe to
the ids of its tags or of its ingredients, fixing which of the two tables
is being served. -/
def attrAssignedJoin (recipes : List Recipe) (attached : Recipe → List Nat)
    (qs : List Attr) : List Attr :=
  joinRows qs (fun t => recipes.filter (fun r => (attached r).contains t.id))

/-- One HTTP request to a tag/ingredient viewset: the authenticated user and
the three recognised query parameters, each as the raw string when present. -/
structure AttrReq where
  user : Nat
  assigned_only : Option String
  search : Option String
  ordering : Option String
deriving DecidableEq, Repr

/-- A tag/ingredient response: plain or paginated list body, single updated
row, structured validation errors (400), deletion (204), or not found
(404). -/
inductive AttrResp where
  | list (body : List Attr)
  | pageList (body : List Attr)
  | item (body : Attr)
  | invalid (errors : List String)
  | deleted
  | notFound
deriving DecidableEq, Repr

/-- Modelled from the spec: serializers.py is not under src/.  TagSerializer
and IngredientSerializer on update: name is the single writable field,
required unless the update is partial, and must not be blank; a field
failure surfaces as a structured 400 error body. -/
def attrSerializerValidate (inst : Attr) (data : Option String) (part : Bool) :
    Except (List String) Attr :=
  match data with
  | some n =>
      if n.isEmpty then Except.error ["name: This field may not be blank."]
      else Except.ok { inst with name := n }
  | none =>
      if part then Except.ok inst
      else Except.error ["name: This field is required."]

def BaseRecipeAttrViewSet.search_fields : List String := ["name"]

def BaseRecipeAttrViewSet.ordering_fields : List String := ["id", "name"]

def BaseRecipeAttrViewSet.ordering : List String := ["-name"]

/-- BaseRecipeAttrViewSet.get_queryset (views.py) after a successful
assigned_only parse: the optional recipe__isnull=False join, then user
scoping, the distinct() flag deduplicating the final row set. -/
def BaseRecipeAttrViewSet.queryset_rows (recipes : List Recipe)
    (attached : Recipe → List Nat) (db : List Attr) (u : Nat)
    (assignedOnly : Bool) : List Attr :=
  let qs := db
  let qs := if assignedOnly then attrAssignedJoin recipes attached qs else qs
  (qs.filter (fun t => t.user == u)).dedup

/-- BaseRecipeAttrViewSet.get_queryset (views.py) in full: none is the
unhandled exception from int() on a malformed assigned_only value. -/
def BaseRecipeAttrViewSet.get_queryset (recipes : List Recipe)
    (attached : Recipe → List Nat) (db : List Attr) (u : Nat)
    (assigned_only : Option String) : Option (List Attr) :=
  (parseAssignedOnly assigned_only).map
    (BaseRecipeAttrViewSet.queryset_rows recipes attached db u)

/-- filter_queryset for the mixin-based viewset: its filter_backends run
SearchFilter then OrderingFilter with the class's own field configuration. -/
def BaseRecipeAttrViewSet.filter_queryset (req : AttrReq) (qs : List Attr) : List Attr :=
  attrOrderBy
    (OrderingFilter.get_ordering BaseRecipeAttrViewSet.ordering_fields
      BaseRecipeAttrViewSet.ordering req.ordering)
    (SearchFilter.attrFilter req.search qs)

/-- get_object of rest_framework.generics.GenericAPIView as inherited by the
mixin-based viewset: get_object_or_404 over
filter_queryset(get_queryset()), keyed on pk.  Outer none is the
unhandled parse exception, inner none the 404. -/
def BaseRecipeAttrViewSet.get_object (recipes : List Recipe)
    (attached : Recipe → List Nat) (db : List Attr) (req : AttrReq)
    (pk : Nat) : Option (Option Attr) :=
  (BaseRecipeAttrViewSet.get_queryset recipes attached db req.user req.assigned_only).map
    (fun rows => (BaseRecipeAttrViewSet.filter_queryset req rows).find? (fun t => t.id == pk))

/-- ListModelMixin.list of rest_framework.mixins as inherited by
BaseRecipeAttrViewSet: filter the queryset, paginate (the paginator is
abstracted as a function returning the page, none when pagination is
inactive), serialize. -/
def BaseRecipeAttrViewSet.list (recipes : List Recipe)
    (attached : Recipe → List Nat) (pag : List Attr → Option (List Attr))
    (db : List Attr) (req : AttrReq) : Option (AttrResp × List Attr) :=
  match BaseRecipeAttrViewSet.get_queryset recipes attached db req.user req.assigned_only with
  | none => none
  | some rows =>
      let qs := BaseRecipeAttrViewSet.filter_queryset req rows
      match pag qs with
      | some page => some (AttrResp.pageList page, db)
      | none => some (AttrResp.list qs, db)

/-- UpdateModelMixin.update of rest_framework.mixins as inherited by
BaseRecipeAttrViewSet: get_object, serializer validation
(raise_exception=True surfacing as the 400 error body), perform_update
saving the row. -/
def BaseRecipeAttrViewSet.update (recipes : List Recipe)
    (attached : Recipe → List Nat) (db : List Attr) (req : AttrReq)
    (pk : Nat) (data : Option String) (part : Bool) :
    Option (AttrResp × List Attr) :=
  match BaseRecipeAttrViewSet.get_object recipes attached db req pk with
  | none => none
  | some none => some (AttrResp.notFound, db)
  | some (some inst) =>
      match attrSerializerValidate inst data part with
      | Except.error es => some (AttrResp.invalid es, db)
      | Except.ok updated =>
          some (AttrResp.item updated,
            db.map (fun t => if t.id == inst.id then updated else t))

/-- UpdateModelMixin.partial_update: set partial and delegate to update. -/
def BaseRecipeAttrViewSet.partial_update (recipes : List Recipe)
    (attached : Recipe → List Nat) (db : List Attr) (req : AttrReq)
    (pk : Nat) (data : Option String) : Option (AttrResp × List Attr) :=
  BaseRecipeAttrViewSet.update recipes attached db req pk data true

/-- DestroyModelMixin.destroy of rest_framework.mixins: get_object, delete
the row, 204. -/
def BaseRecipeAttrViewSet.destroy (recipes : List Recipe)
    (attached : Recipe → List Nat) (db : List Attr) (req : AttrReq)
    (pk : Nat) : Option (AttrResp × List Attr) :=
  match BaseRecipeAttrViewSet.get_object recipes attached db req pk with
  | none => none
  | some none => some (AttrResp.notFound, db)
  | some (some inst) =>
      some (AttrResp.deleted, db.filter (fun t => t.id != inst.id))

def BaseRecipeAttrMixClearViewSet.search_fields : List String := ["name"]

def BaseRecipeAttrMixClearViewSet.ordering_fields : List String := ["id", "name"]

def BaseRecipeAttrMixClearViewSet.ordering : List String := ["-name"]

/-- BaseRecipeAttrMixClearViewSet.get_queryset (views.py): the hand-written
class repeats the same body as the mixin-based class. -/
def BaseRecipeAttrMixClearViewSet.queryset_rows (recipes : List Recipe)
    (attached : Recipe → List Nat) (db : List Attr) (u : Nat)
    (assignedOnly : Bool) : List Attr :=
  let qs := db
  let qs := if assignedOnly then attrAssignedJoin recipes attached qs else qs
  (qs.filter (fun t => t.user == u)).dedup

/-- BaseRecipeAttrMixClearViewSet.get_queryset (views.py) in full. -/
def BaseRecipeAttrMixClearViewSet.get_queryset (recipes : List Recipe)
    (attached : Recipe → List Nat) (db : List Attr) (u : Nat)
    (assigned_only : Option String) : Option (List Attr) :=
  (parseAssignedOnly assigned_only).map
    (BaseRecipeAttrMixClearViewSet.queryset_rows recipes attached db u)

/-- filter_queryset for the hand-written viewset: same backends, its own
identical field configuration. -/
def BaseRecipeAttrMixClearViewSet.filter_queryset (req : AttrReq) (qs : List Attr) : List Attr :=
  attrOrderBy
    (OrderingFilter.get_ordering BaseRecipeAttrMixClearViewSet.ordering_fields
      BaseRecipeAttrMixClearViewSet.ordering req.ordering)
    (SearchFilter.attrFilter req.search qs)

/-- get_object as inherited by the hand-written viewset. -/
def BaseRecipeAttrMixClearViewSet.get_object (recipes : List Recipe)
    (attached : Recipe → List Nat) (db : List Attr) (req : AttrReq)
    (pk : Nat) : Option (Option Attr) :=
  (BaseRecipeAttrMixClearViewSet.get_queryset recipes attached db req.user req.assigned_only).map
    (fun rows => (BaseRecipeAttrMixClearViewSet.filter_queryset req rows).find? (fun t => t.id == pk))

/-- BaseRecipeAttrMixClearViewSet.list (views.py): the hand-written list
body, filter the queryset, paginate, serialize. -/
def BaseRecipeAttrMixClearViewSet.list (recipes : List Recipe)
    (attached : Recipe → List Nat) (pag : List Attr → Option (List Attr))
    (db : List Attr) (req : AttrReq) : Option (AttrResp × List Attr) :=
  match BaseRecipeAttrMixClearViewSet.get_queryset recipes attached db req.user req.assigned_only with
  | none => none
  | some rows =>
      let qs := BaseRecipeAttrMixClearViewSet.filter_queryset req rows
      match pag qs with
      | some page => some (AttrResp.pageList page, db)
      | none => some (AttrResp.list qs, db)

/-- BaseRecipeAttrMixClearViewSet.update (views.py): the hand-written update
body, get_object, serializer validation, serializer.save(). -/
def BaseRecipeAttrMixClearViewSet.update (recipes : List Recipe)
    (attached : Recipe → List Nat) (db : List Attr) (req : AttrReq)
    (pk : Nat) (data : Option String) (part : Bool) :
    Option (AttrResp × List Attr) :=
  match BaseRecipeAttrMixClearViewSet.get_object recipes attached db req pk with
  | none => none
  | some none => some (AttrResp.notFound, db)
  | some (some inst) =>
      match attrSerializerValidate inst data part with
      | Except.error es => some (AttrResp.invalid es, db)
      | Except.ok updated =>
          some (AttrResp.item updated,
            db.map (fun t => if t.id == inst.id then updated else t))

/-- BaseRecipeAttrMixClearViewSet.partial_update (views.py): set partial in
kwargs and delegate to update. -/
def BaseRecipeAttrMixClearViewSet.partial_update (recipes : List Recipe)
    (attached : Recipe → List Nat) (db : List Attr) (req : AttrReq)
    (pk : Nat) (data : Option String) : Option (AttrResp × List Attr) :=
  BaseRecipeAttrMixClearViewSet.update recipes attached db req pk data true

/-- BaseRecipeAttrMixClearViewSet.destroy (views.py): get_object,
instance.delete(), 204. -/
def BaseRecipeAttrMixClearViewSet.destroy (recipes : List Recipe)
    (attached : Recipe → List Nat) (db : List Attr) (req : AttrReq)
    (pk : Nat) : Option (AttrResp × List Attr) :=
  match BaseRecipeAttrMixClearViewSet.get_object recipes attached db req pk with
  | none => none
  | some none => some (AttrResp.notFound, db)
  | some (some inst) =>
      some (AttrResp.deleted, db.filter (fun t => t.id != inst.id))

/-- The body of an unpaginated tag/ingredient list response, none when
queryset construction raises. -/
def attrListBody (recipes : List Recipe) (attached : Recipe → List Nat)
    (db : List Attr) (req : AttrReq) : Option (List Attr) :=
  match BaseRecipeAttrViewSet.list recipes attached (fun _ => none) db req with
  | some (AttrResp.list b, _) => some b
  | _ => none

/-- The list body a parameter-free tag/ingredient request produces: the
user-scoped rows in the default descending-name order. -/
def attrDefaultListBody (recipes : List Recipe) (attached : Recipe → List Nat)
    (db : List Attr) (u : Nat) : List Attr :=
  attrOrderBy ["-name"] (BaseRecipeAttrViewSet.queryset_rows recipes attached db u false)

/-- Detail-route status for a tag/ingredient pk under a parameter-free
request: 200 when the scoped queryset holds the pk, 404 otherwise, 500 for
the unreachable parse failure of the absent assigned_only parameter. -/
def attrDetailStatus (recipes : List Recipe) (attached : Recipe → List Nat)
    (db : List Attr) (u : Nat) (pk : Nat) : Nat :=
  match BaseRecipeAttrViewSet.get_object recipes attached db
      { user := u, assigned_only := none, search := none, ordering := none } pk with
  | none => 500
  | some none => 404
  | some (some _) => 200

/-- Detail-route status for a recipe pk: get_object_or_404 over the
user-scoped queryset of RecipeViewSet.get_queryset. -/
def recipeDetailStatus (db : List Recipe) (u : Nat) (pk : Nat) : Nat :=
  match (RecipeViewSet.get_queryset db u).find? (fun r => r.id == pk) with
  | some _ => 200
  | none => 404

/-- A recipe image-upload response: updated representation, structured
validation errors, or not found. -/
inductive UploadResp where
  | ok (body : Recipe)
  | invalid (errors : List String)
  | notFound
deriving DecidableEq, Repr

/-- An uploaded payload.  Modelled from the spec:
serializers.RecipeImageSerializer is not under src/; whether the payload
parses as a valid image is carried as a field, and on success the stored
image path is the serializer's saved value. -/
structure UploadData where
  content : String
  isImage : Bool
deriving DecidableEq, Repr

/-- RecipeViewSet.upload_image (views.py): get_object on the user-scoped
queryset, serializer validation, save and 200 on success, 400 with the
error body and no write on failure. -/
def RecipeViewSet.upload_image (db : List Recipe) (u : Nat) (pk : Nat)
    (data : UploadData) : UploadResp × List Recipe :=
  match (RecipeViewSet.get_queryset db u).find? (fun r => r.id == pk) with
  | none => (UploadResp.notFound, db)
  | some recipe =>
      if data.isImage then
        let updated := { recipe with image := some data.content }
        (UploadResp.ok updated, db.map (fun r => if r.id == recipe.id then updated else r))
      else
        (UploadResp.invalid ["image: Upload a valid image."], db)

/-- Modelled from the spec: serializers.py is not under src/.  The user
representation UserSerializer returns: email and name (the password is
write-only). -/
def UserSerializer.fields (u : User) : String × String := (u.email, u.name)

/-- ManageUserView.get_object (views.py): the authenticated requester
itself. -/
def ManageUserView.get_object (requester : User) : User := requester

/-- The GET handler shared by ManageUserView and ManageUserApiView
(views.py): serialize request.user. -/
def ManageUserView.getSelf (requester : User) : Nat × (String × String) :=
  (200, UserSerializer.fields (ManageUserView.get_object requester))

/-- An update payload for the me endpoints. -/
structure UserData where
  email : Option String
  name : Option String
deriving DecidableEq, Repr

/-- Modelled from the spec: serializers.py is not under src/.  PUT requires
every writable field, PATCH accepts any subset. -/
def userDataValid (d : UserData) (part : Bool) : Bool :=
  part || (d.email.isSome && d.name.isSome)

/-- Apply a validated payload to a user row. -/
def userApply (u : User) (d : UserData) : User :=
  { u with email := d.email.getD u.email, name := d.name.getD u.name }

/-- The PUT and PATCH handlers of ManageUserApiView (views.py) and of
ManageUserView via RetrieveUpdateAPIView: the serializer is bound to
request.user, so a save writes exactly the requester's row. -/
def ManageUserView.updateSelf (db : List User) (requester : User)
    (d : UserData) (part : Bool) : Nat × List User :=
  if userDataValid d part then
    let updated := userApply requester d
    (200, db.map (fun w => if w.id == requester.id then updated else w))
  else
    (400, db)

/-- Modelled from the spec: ListUserSerializer is not under src/; the listed
representation of one account. -/
def ListUserSerializer.fields (u : User) : String × String := (u.email, u.name)

/-- ListAllUsersApiView.get (views.py): serialize every user row.  The view
sets no permission classes, so per the spec no access restriction applies;
the handler never reads the credential, carried here as the ignored auth
argument. -/
def ListAllUsersApiView.get (db : List User) (auth : Option Nat) :
    Nat × List (String × String) :=
  (200, db.map ListUserSerializer.fields)

/-- Membership in a many-to-many join: the row is in the queryset and has at
least one related row. -/
theorem mem_joinRows {α β : Type} (qs : List α) (rows : α → List β) (x : α) :
    x ∈ joinRows qs rows ↔ x ∈ qs ∧ rows x ≠ [] := by
  simp only [joinRows, List.mem_flatMap, List.mem_map]
  constructor
  · rintro ⟨a, ha, y, hy, rfl⟩
    exact ⟨ha, List.ne_nil_of_mem hy⟩
  · rintro ⟨hx, hne⟩
    obtain ⟨y, hy⟩ := List.exists_mem_of_ne_nil _ hne
    exact ⟨x, hx, y, hy, rfl⟩

/-- A filtered list is nonempty exactly when some element satisfies the
predicate. -/
theorem filter_ne_nil_iff {α : Type} (p : α → Bool) (l : List α) :
    l.filter p ≠ [] ↔ ∃ x ∈ l, p x := by
  rw [Ne, List.filter_eq_nil_iff]
  push_neg
  simp

/-- Ordering a tag/ingredient row list does not change membership. -/
theorem mem_attrOrderBy (fields : List String) (l : List Attr) (x : Attr) :
    x ∈ attrOrderBy fields l ↔ x ∈ l :=
  (List.perm_insertionSort _ _).mem_iff

/-- Ordering a tag/ingredient row list preserves freedom from duplicates. -/
theorem nodup_attrOrderBy (fields : List String) (l : List Attr) (h : l.Nodup) :
    (attrOrderBy fields l).Nodup :=
  ((List.perm_insertionSort _ _).nodup_iff).mpr h

/-- Ordering a recipe row list does not change membership. -/
theorem mem_recipeOrderBy (fields : List String) (l : List Recipe) (x : Recipe) :
    x ∈ recipeOrderBy fields l ↔ x ∈ l :=
  (List.perm_insertionSort _ _).mem_iff

/-- Ordering a recipe row list preserves freedom from duplicates. -/
theorem nodup_recipeOrderBy (fields : List String) (l : List Recipe) (h : l.Nodup) :
    (recipeOrderBy fields l).Nodup :=
  ((List.perm_insertionSort _ _).nodup_iff).mpr h

/-- Membership under the tags__id in filter. -/
theorem mem_tagsIn (ids : List Nat) (qs : List Recipe) (r : Recipe) :
    r ∈ RecipeFilter.tagsIn ids qs ↔ r ∈ qs ∧ ∃ t ∈ r.tags, t ∈ ids := by
  rw [RecipeFilter.tagsIn, mem_joinRows, filter_ne_nil_iff]
  simp

/-- Membership under the ingredients__id in filter. -/
theorem mem_ingredientsIn (ids : List Nat) (qs : List Recipe) (r : Recipe) :
    r ∈ RecipeFilter.ingredientsIn ids qs ↔ r ∈ qs ∧ ∃ i ∈ r.ingredients, i ∈ ids := by
  rw [RecipeFilter.ingredientsIn, mem_joinRows, filter_ne_nil_iff]
  simp

/-- Membership under the recipe__isnull=False join. -/
theorem mem_attrAssignedJoin (recipes : List Recipe) (attached : Recipe → List Nat)
    (qs : List Attr) (t : Attr) :
    t ∈ attrAssignedJoin recipes attached qs ↔
      t ∈ qs ∧ ∃ r ∈ recipes, t.id ∈ attached r := by
  rw [attrAssignedJoin, mem_joinRows, filter_ne_nil_iff]
  simp

/-- Membership in the tag/ingredient queryset rows: owned by the requester,
and attached to some recipe when the assigned restriction is active. -/
theorem mem_attr_queryset_rows (recipes : List Recipe) (attached : Recipe → List Nat)
    (db : List Attr) (u : Nat) (b : Bool) (t : Attr) :
    t ∈ BaseRecipeAttrViewSet.queryset_rows recipes attached db u b ↔
      t ∈ db ∧ t.user = u ∧ (b = true → ∃ r ∈ recipes, t.id ∈ attached r) := by
  cases b <;>
    simp [BaseRecipeAttrViewSet.queryset_rows, List.mem_filter, mem_attrAssignedJoin] <;>
    tauto

/-- Membership in the recipe list body: owned by the requester and matching
every supplied filter. -/
theorem mem_recipe_list_rows (db : List Recipe) (u : Nat)
    (tagIds ingIds : Option (List Nat)) (r : Recipe) :
    r ∈ RecipeViewSet.list_rows db u tagIds ingIds ↔
      r ∈ db ∧ r.user = u ∧
        (∀ l, tagIds = some l → ∃ t ∈ r.tags, t ∈ l) ∧
        (∀ l, ingIds = some l → ∃ i ∈ r.ingredients, i ∈ l) := by
  cases tagIds <;> cases ingIds <;>
    simp [RecipeViewSet.list_rows, RecipeFilter.apply, mem_recipeOrderBy,
      mem_tagsIn, mem_ingredientsIn, List.mem_filter] <;>
    tauto

/-- The recipe list body never repeats a row. -/
theorem nodup_recipe_list_rows (db : List Recipe) (u : Nat)
    (tagIds ingIds : Option (List Nat)) :
    (RecipeViewSet.list_rows db u tagIds ingIds).Nodup :=
  nodup_recipeOrderBy _ _ (List.nodup_dedup _)

/-- A parameter-free tag/ingredient list request with a parseable
assigned_only value produces the queryset rows in default order. -/
theorem attrListBody_eq (recipes : List Recipe) (attached : Recipe → List Nat)
    (db : List Attr) (u : Nat) (ao : Option String) (b : Bool)
    (h : parseAssignedOnly ao = some b) :
    attrListBody recipes attached db { user := u, assigned_only := ao, search := none, ordering := none } =
      some (attrOrderBy ["-name"] (BaseRecipeAttrViewSet.queryset_rows recipes attached db u b)) := by
  simp [attrListBody, BaseRecipeAttrViewSet.list, BaseRecipeAttrViewSet.get_queryset, h,
    BaseRecipeAttrViewSet.filter_queryset, SearchFilter.attrFilter,
    OrderingFilter.get_ordering, BaseRecipeAttrViewSet.ordering]

/-- The text-column comparison is reflexive. -/
theorem lexLe_refl (l : List Char) : lexLe l l = true := by
  induction l with
  | nil => rfl
  | cons a as ih => simp [lexLe, ih]

/-- The text-column comparison is total. -/
theorem lexLe_total (x y : List Char) : lexLe x y = true ∨ lexLe y x = true := by
  induction x generalizing y with
  | nil => left; rfl
  | cons a as ih =>
    cases y with
    | nil => right; rfl
    | cons b bs =>
      by_cases hab : a = b
      · subst hab
        simpa [lexLe] using ih bs
      · rcases lt_or_gt_of_ne hab with h | h
        · left; simp [lexLe, hab, h]
        · right; simp [lexLe, Ne.symm hab, h]

/-- The text-column comparison is transitive. -/
theorem lexLe_trans : ∀ {x y z : List Char},
    lexLe x y = true → lexLe y z = true → lexLe x z = true := by
  intro x
  induction x with
  | nil => intro y z _ _; rfl
  | cons a as ih =>
    intro y z h1 h2
    cases y with
    | nil => simp [lexLe] at h1
    | cons b bs =>
      cases z with
      | nil => simp [lexLe] at h2
      | cons c cs =>
        by_cases hab : a = b <;> by_cases hbc : b = c
        · subst hab; subst hbc
          simp only [lexLe, beq_self_eq_true, if_true] at h1 h2 ⊢
          exact ih h1 h2
        · subst hab
          simp only [lexLe, beq_self_eq_true, if_true] at h1
          simp only [lexLe, beq_iff_eq, hbc, if_false, decide_eq_true_eq] at h2 ⊢
          simp [hbc, h2]
        · subst hbc
          simp only [lexLe, beq_iff_eq, hab, if_false, decide_eq_true_eq] at h1 ⊢
          simp [hab, h1]
        · simp only [lexLe, beq_iff_eq, hab, hbc, if_false, decide_eq_true_eq] at h1 h2
          have hac : a < c := lt_trans h1 h2
          simp [lexLe, ne_of_lt hac, hac]

/-- The single default ORDER BY term -name compares two tag/ingredient rows
by descending name. -/
theorem attrNameRel_iff (a b : Attr) :
    (attrFieldsLe ["-name"] a b = true) ↔ strLe b.name a.name = true := by
  by_cases h : a.name = b.name
  · simp [attrFieldsLe, attrKeyEq, attrKeyLe, h, strLe, lexLe_refl]
  · simp [attrFieldsLe, attrKeyEq, attrKeyLe, h, strLe]

/-- Claim C1: views.py sets filterset_class to the attribute
RecipeViewSetFilter of the filters module, a name recipe/filters.py never
defines, so the lookup finds nothing (importing the recipe views raises
AttributeError and no recipe request is served).  With the filterset the
spec intends, RecipeFilter, a request with tags=1,2 returns exactly the
requester's recipes whose tag-id set meets {1, 2}, conjoined with the
ingredients filter when one is supplied, and the response contains no
duplicate recipes after the many-to-many joins. -/
theorem C1_recipe_filtering :
    RecipeViewSet.filterset_class = none ∧
    ∀ (db : List Recipe) (u : Nat) (ings : Option (List Nat)) (r : Recipe),
      (r ∈ RecipeViewSet.list_rows db u (some [1, 2]) ings ↔
        r ∈ db ∧ r.user = u ∧ (∃ tg ∈ r.tags, tg ∈ ([1, 2] : List Nat)) ∧
          ∀ l, ings = some l → ∃ i ∈ r.ingredients, i ∈ l) ∧
      (RecipeViewSet.list_rows db u (some [1, 2]) ings).Nodup := by
  refine ⟨by decide, ?_⟩
  intro db u ings r
  refine ⟨?_, nodup_recipe_list_rows db u _ ings⟩
  rw [mem_recipe_list_rows]
  simp

/-- Claim C3: for every action (list, update, partial update, destroy), every
request parameter combination, every table state, every paginator and every
authenticated user, the framework-mixin-based tag/ingredient viewset and
the hand-written no-mixin viewset return the same response and leave the
same table state. -/
theorem C3_mixin_equivalence :
    ∀ (recipes : List Recipe) (attached : Recipe → List Nat)
      (pag : List Attr → Option (List Attr)) (db : List Attr) (req : AttrReq)
      (pk : Nat) (data : Option String) (part : Bool),
      BaseRecipeAttrViewSet.list recipes attached pag db req =
        BaseRecipeAttrMixClearViewSet.list recipes attached pag db req ∧
      BaseRecipeAttrViewSet.update recipes attached db req pk data part =
        BaseRecipeAttrMixClearViewSet.update recipes attached db req pk data part ∧
      BaseRecipeAttrViewSet.partial_update recipes attached db req pk data =
        BaseRecipeAttrMixClearViewSet.partial_update recipes attached db req pk data ∧
      BaseRecipeAttrViewSet.destroy recipes attached db req pk =
        BaseRecipeAttrMixClearViewSet.destroy recipes attached db req pk :=
  fun _ _ _ _ _ _ _ _ => ⟨rfl, rfl, rfl, rfl⟩

/-- Claim C10: through Python implicit string-literal concatenation, the set
of ordering field names RecipeViewSet accepts is exactly id and
time_minutesprice; an ordering parameter of price or time_minutes is
dropped as invalid and the ordering falls back to the default -id, while
id and the concatenated artifact name itself are accepted. -/
theorem C10_ordering_fields :
    RecipeViewSet.ordering_fields = ["id", "time_minutesprice"] ∧
    OrderingFilter.get_ordering RecipeViewSet.ordering_fields RecipeViewSet.ordering
      (some "price") = ["-id"] ∧
    OrderingFilter.get_ordering RecipeViewSet.ordering_fields RecipeViewSet.ordering
      (some "time_minutes") = ["-id"] ∧
    OrderingFilter.get_ordering RecipeViewSet.ordering_fields RecipeViewSet.ordering
      (some "-time_minutes") = ["-id"] ∧
    OrderingFilter.get_ordering RecipeViewSet.ordering_fields RecipeViewSet.ordering
      (some "id") = ["id"] ∧
    OrderingFilter.get_ordering RecipeViewSet.ordering_fields RecipeViewSet.ordering
      (some "time_minutesprice") = ["time_minutesprice"] ∧
    OrderingFilter.get_ordering RecipeViewSet.ordering_fields RecipeViewSet.ordering
      none = ["-id"] := by
  decide

/-- Claim C2: a recipe, tag or ingredient owned by user u appears in u's own
list and in no other authenticated user's list, and a non-owner's
detail-route access to its pk answers 404 rather than 403, because every
queryset is filtered on user = current user (primary keys are assumed
duplicate-free, as the database enforces). -/
theorem C2_ownership_scoping :
    ∀ (rdb recipes : List Recipe) (attached : Recipe → List Nat) (adb : List Attr)
      (u v : Nat) (r : Recipe) (t : Attr),
      r ∈ rdb → r.user = u → t ∈ adb → t.user = u → v ≠ u →
      (rdb.map Recipe.id).Nodup → (adb.map Attr.id).Nodup →
      (r ∈ RecipeViewSet.list_rows rdb u none none ∧
        r ∉ RecipeViewSet.list_rows rdb v none none ∧
        recipeDetailStatus rdb v r.id = 404) ∧
      (attrListBody recipes attached adb
          { user := u, assigned_only := none, search := none, ordering := none } =
            some (attrDefaultListBody recipes attached adb u) ∧
        t ∈ attrDefaultListBody recipes attached adb u ∧
        t ∉ attrDefaultListBody recipes attached adb v ∧
        attrDetailStatus recipes attached adb v t.id = 404) := by
  intro rdb recipes attached adb u v r t hr hru ht htu hvu hrn han
  refine ⟨⟨?_, ?_, ?_⟩, ?_, ?_, ?_, ?_⟩
  · rw [mem_recipe_list_rows]
    exact ⟨hr, hru, by simp, by simp⟩
  · intro hmem
    rw [mem_recipe_list_rows] at hmem
    exact hvu (hmem.2.1.symm.trans hru)
  · have hnone : (RecipeViewSet.get_queryset rdb v).find? (fun x => x.id == r.id) = none := by
      rw [List.find?_eq_none]
      intro x hx
      rw [RecipeViewSet.get_queryset, List.mem_dedup, List.mem_filter] at hx
      simp only [beq_iff_eq]
      intro hid
      have hxv : x.user = v := by simpa using hx.2
      have hxr : x = r := List.inj_on_of_nodup_map hrn hx.1 hr hid
      rw [hxr] at hxv
      exact hvu (hxv.symm.trans hru)
    simp [recipeDetailStatus, hnone]
  · exact attrListBody_eq recipes attached adb u none false rfl
  · rw [attrDefaultListBody, mem_attrOrderBy, mem_attr_queryset_rows]
    exact ⟨ht, htu, by simp⟩
  · intro hmem
    rw [attrDefaultListBody, mem_attrOrderBy, mem_attr_queryset_rows] at hmem
    exact hvu (hmem.2.1.symm.trans htu)
  · have hnone : (BaseRecipeAttrViewSet.filter_queryset
        { user := v, assigned_only := none, search := none, ordering := none }
        (BaseRecipeAttrViewSet.queryset_rows recipes attached adb v false)).find?
          (fun x => x.id == t.id) = none := by
      rw [List.find?_eq_none]
      intro x hx
      rw [BaseRecipeAttrViewSet.filter_queryset] at hx
      rw [mem_attrOrderBy] at hx
      have hx2 : x ∈ BaseRecipeAttrViewSet.queryset_rows recipes attached adb v false := hx
      rw [mem_attr_queryset_rows] at hx2
      simp only [beq_iff_eq]
      intro hid
      have hxt : x = t := List.inj_on_of_nodup_map han hx2.1 ht hid
      rw [hxt] at hx2
      exact hvu (hx2.2.1.symm.trans htu)
    simp [attrDetailStatus, BaseRecipeAttrViewSet.get_object,
      BaseRecipeAttrViewSet.get_queryset, parseAssignedOnly, hnone]

/-- Closed check of the ownership-scoping theorem on a one-recipe, one-tag
table: user 1 sees the rows, user 2 gets 404 on both detail routes. -/
theorem C2_witness :
    (⟨1, 1, "pasta", "d", 10, 5, none, [1], [2]⟩ : Recipe) ∈
        RecipeViewSet.list_rows [⟨1, 1, "pasta", "d", 10, 5, none, [1], [2]⟩] 1 none none ∧
    recipeDetailStatus [⟨1, 1, "pasta", "d", 10, 5, none, [1], [2]⟩] 2 1 = 404 ∧
    (⟨1, 1, "vegan"⟩ : Attr) ∈ attrDefaultListBody [] (fun r => r.tags) [⟨1, 1, "vegan"⟩] 1 ∧
    attrDetailStatus [] (fun r => r.tags) [⟨1, 1, "vegan"⟩] 2 1 = 404 := by
  have h := C2_ownership_scoping [⟨1, 1, "pasta", "d", 10, 5, none, [1], [2]⟩] []
    (fun r => r.tags) [⟨1, 1, "vegan"⟩] 1 2
    ⟨1, 1, "pasta", "d", 10, 5, none, [1], [2]⟩ ⟨1, 1, "vegan"⟩
    (by decide) (by decide) (by decide) (by decide) (by decide) (by decide) (by decide)
  exact ⟨h.1.1, h.1.2.2, h.2.2.1, h.2.2.2.2⟩

/-- Claim C4: a tag/ingredient list request with assigned_only=1 returns
exactly the requester's rows attached to at least one recipe; with the
parameter absent or 0 no attachment restriction applies and the two
requests coincide. -/
theorem C4_assigned_only :
    ∀ (recipes : List Recipe) (attached : Recipe → List Nat) (db : List Attr)
      (u : Nat) (t : Attr) (L M : List Attr),
      attrListBody recipes attached db
        { user := u, assigned_only := some "1", search := none, ordering := none } = some L →
      attrListBody recipes attached db
        { user := u, assigned_only := none, search := none, ordering := none } = some M →
      (t ∈ L ↔ t ∈ db ∧ t.user = u ∧ ∃ r ∈ recipes, t.id ∈ attached r) ∧
      (t ∈ M ↔ t ∈ db ∧ t.user = u) ∧
      attrListBody recipes attached db
          { user := u, assigned_only := some "0", search := none, ordering := none } =
        attrListBody recipes attached db
          { user := u, assigned_only := none, search := none, ordering := none } := by
  intro recipes attached db u t L M hL hM
  rw [attrListBody_eq recipes attached db u (some "1") true (by decide)] at hL
  rw [attrListBody_eq recipes attached db u none false rfl] at hM
  have hL2 := Option.some.inj hL
  have hM2 := Option.some.inj hM
  subst hL2
  subst hM2
  refine ⟨?_, ?_, ?_⟩
  · rw [mem_attrOrderBy, mem_attr_queryset_rows]
    simp
  · rw [mem_attrOrderBy, mem_attr_queryset_rows]
    simp
  · rw [attrListBody_eq recipes attached db u (some "0") false (by decide),
      attrListBody_eq recipes attached db u none false rfl]

/-- Closed check of the assigned-only theorem: with one recipe carrying tag
1, the assigned-only listing holds exactly the attached tag and the plain
listing holds the whole user-scoped table. -/
theorem C4_witness :
    attrListBody [⟨1, 1, "soup", "d", 5, 3, none, [1], []⟩] (fun r => r.tags)
        [⟨1, 1, "vegan"⟩]
        { user := 1, assigned_only := some "1", search := none, ordering := none } =
      some [⟨1, 1, "vegan"⟩] ∧
    attrListBody [⟨1, 1, "soup", "d", 5, 3, none, [1], []⟩] (fun r => r.tags)
        [⟨1, 1, "vegan"⟩]
        { user := 1, assigned_only := none, search := none, ordering := none } =
      some [⟨1, 1, "vegan"⟩] ∧
    ((⟨1, 1, "vegan"⟩ : Attr) ∈ ([⟨1, 1, "vegan"⟩] : List Attr) ↔
      (⟨1, 1, "vegan"⟩ : Attr) ∈ ([⟨1, 1, "vegan"⟩] : List Attr) ∧
        (⟨1, 1, "vegan"⟩ : Attr).user = 1 ∧
        ∃ r ∈ ([⟨1, 1, "soup", "d", 5, 3, none, [1], []⟩] : List Recipe),
          (⟨1, 1, "vegan"⟩ : Attr).id ∈ r.tags) := by
  refine ⟨by decide, by decide, ?_⟩
  exact (C4_assigned_only [⟨1, 1, "soup", "d", 5, 3, none, [1], []⟩] (fun r => r.tags)
    [⟨1, 1, "vegan"⟩] 1 ⟨1, 1, "vegan"⟩ [⟨1, 1, "vegan"⟩] [⟨1, 1, "vegan"⟩]
    (by decide) (by decide)).1

/-- Claim C5, counterexample: a parameter-free tag list request over rows
banana (id 1) and apple (id 2) answers banana first, the descending-name
default of the code, not the descending-id order the claim states, which
would put id 2 first. -/
theorem C5_counterexample :
    attrListBody [] (fun r => r.tags) [⟨1, 1, "banana"⟩, ⟨2, 1, "apple"⟩]
        { user := 1, assigned_only := none, search := none, ordering := none } =
      some [⟨1, 1, "banana"⟩, ⟨2, 1, "apple"⟩] ∧
    ¬ List.Sorted (fun a b : Attr => b.id ≤ a.id) [⟨1, 1, "banana"⟩, ⟨2, 1, "apple"⟩] := by
  constructor
  · decide
  · decide

/-- Claim C5 as amended: a tag or ingredient list request supplying no
ordering parameter returns its rows in the default ordering -name
(descending name), not -id; the -id default belongs to the recipe listing
alone. -/
theorem C5_default_ordering :
    ∀ (recipes : List Recipe) (attached : Recipe → List Nat) (db : List Attr)
      (u : Nat) (L : List Attr),
      attrListBody recipes attached db
        { user := u, assigned_only := none, search := none, ordering := none } = some L →
      L.Sorted (fun a b : Attr => strLe b.name a.name = true) := by
  intro recipes attached db u L hL
  rw [attrListBody_eq recipes attached db u none false rfl] at hL
  have hL2 := Option.some.inj hL
  subst hL2
  have hs : List.Sorted (fun a b : Attr => attrFieldsLe ["-name"] a b = true)
      (attrOrderBy ["-name"] (BaseRecipeAttrViewSet.queryset_rows recipes attached db u false)) := by
    haveI : IsTotal Attr (fun a b : Attr => attrFieldsLe ["-name"] a b = true) := by
      constructor
      intro a b
      rw [attrNameRel_iff, attrNameRel_iff]
      exact lexLe_total b.name.data a.name.data
    haveI : IsTrans Attr (fun a b : Attr => attrFieldsLe ["-name"] a b = true) := by
      constructor
      intro a b c hab hbc
      rw [attrNameRel_iff] at hab hbc ⊢
      exact lexLe_trans hbc hab
    exact List.sorted_insertionSort _ _
  exact hs.imp (fun h => (attrNameRel_iff _ _).mp h)

/-- Closed check of the default-ordering theorem on a two-row table. -/
theorem C5_default_ordering_witness :
    attrListBody [] (fun r => r.tags) [⟨1, 1, "banana"⟩, ⟨2, 1, "apple"⟩]
        { user := 1, assigned_only := none, search := none, ordering := none } =
      some [⟨1, 1, "banana"⟩, ⟨2, 1, "apple"⟩] ∧
    List.Sorted (fun a b : Attr => strLe b.name a.name = true)
      [⟨1, 1, "banana"⟩, ⟨2, 1, "apple"⟩] :=
  ⟨by decide, C5_default_ordering [] (fun r => r.tags)
    [⟨1, 1, "banana"⟩, ⟨2, 1, "apple"⟩] 1 _ (by decide)⟩

/-- Claim C9: a tag/ingredient list request whose assigned_only value is not
parseable as an integer raises out of queryset construction (no structured
400), and every nonzero parseable value, not only 1, activates the
assigned-only restriction while zero deactivates it. -/
theorem C9_assigned_only_parsing :
    ∀ (recipes : List Recipe) (attached : Recipe → List Nat) (db : List Attr)
      (u : Nat) (s : String) (n : Int),
      BaseRecipeAttrViewSet.get_queryset recipes attached db u (some "true") = none ∧
      BaseRecipeAttrViewSet.get_queryset recipes attached db u (some "abc") = none ∧
      (pyToInt? s = some n → n ≠ 0 →
        BaseRecipeAttrViewSet.get_queryset recipes attached db u (some s) =
          some (BaseRecipeAttrViewSet.queryset_rows recipes attached db u true)) ∧
      (pyToInt? s = some 0 →
        BaseRecipeAttrViewSet.get_queryset recipes attached db u (some s) =
          some (BaseRecipeAttrViewSet.queryset_rows recipes attached db u false)) := by
  intro recipes attached db u s n
  refine ⟨?_, ?_, ?_, ?_⟩
  · simp [BaseRecipeAttrViewSet.get_queryset, parseAssignedOnly, show pyToInt? "true" = none by decide]
  · simp [BaseRecipeAttrViewSet.get_queryset, parseAssignedOnly, show pyToInt? "abc" = none by decide]
  · intro hs hn
    simp [BaseRecipeAttrViewSet.get_queryset, parseAssignedOnly, hs, hn]
  · intro hs
    simp [BaseRecipeAttrViewSet.get_queryset, parseAssignedOnly, hs]

/-- Closed check of the assigned-only parsing theorem: 2 and -1 activate the
restriction, 0 deactivates it. -/
theorem C9_witness :
    BaseRecipeAttrViewSet.get_queryset [] (fun r => r.tags) [⟨1, 1, "vegan"⟩] 1 (some "2") =
      some (BaseRecipeAttrViewSet.queryset_rows [] (fun r => r.tags) [⟨1, 1, "vegan"⟩] 1 true) ∧
    BaseRecipeAttrViewSet.get_queryset [] (fun r => r.tags) [⟨1, 1, "vegan"⟩] 1 (some "-1") =
      some (BaseRecipeAttrViewSet.queryset_rows [] (fun r => r.tags) [⟨1, 1, "vegan"⟩] 1 true) ∧
    BaseRecipeAttrViewSet.get_queryset [] (fun r => r.tags) [⟨1, 1, "vegan"⟩] 1 (some "0") =
      some (BaseRecipeAttrViewSet.queryset_rows [] (fun r => r.tags) [⟨1, 1, "vegan"⟩] 1 false) ∧
    BaseRecipeAttrViewSet.get_queryset [] (fun r => r.tags) [⟨1, 1, "vegan"⟩] 1 (some "true") =
      none := by
  refine ⟨?_, ?_, ?_, ?_⟩
  · exact (C9_assigned_only_parsing [] (fun r => r.tags) [⟨1, 1, "vegan"⟩] 1 "2" 2).2.2.1
      (by decide) (by decide)
  · exact (C9_assigned_only_parsing [] (fun r => r.tags) [⟨1, 1, "vegan"⟩] 1 "-1" (-1)).2.2.1
      (by decide) (by decide)
  · exact (C9_assigned_only_parsing [] (fun r => r.tags) [⟨1, 1, "vegan"⟩] 1 "0" 0).2.2.2
      (by decide)
  · exact (C9_assigned_only_parsing [] (fun r => r.tags) [⟨1, 1, "vegan"⟩] 1 "0" 0).1

/-- Claim C6: the list-users endpoint answers 200 with every user account
regardless of what credential, if any, the request carries. -/
theorem C6_list_all_users :
    ∀ (db : List User) (a b : Option Nat) (u : User),
      ListAllUsersApiView.get db a = ListAllUsersApiView.get db b ∧
      (ListAllUsersApiView.get db a).1 = 200 ∧
      (u ∈ db → ListUserSerializer.fields u ∈ (ListAllUsersApiView.get db a).2) :=
  fun _ _ _ _ => ⟨rfl, rfl, fun hu => List.mem_map_of_mem _ hu⟩

/-- Closed check of the list-users theorem: an anonymous request and a
token-bearing request both list the single stored account. -/
theorem C6_witness :
    ListAllUsersApiView.get [⟨1, "a@x.io", "A"⟩] none =
      ListAllUsersApiView.get [⟨1, "a@x.io", "A"⟩] (some 7) ∧
    ListUserSerializer.fields ⟨1, "a@x.io", "A"⟩ ∈
      (ListAllUsersApiView.get [⟨1, "a@x.io", "A"⟩] none).2 :=
  ⟨(C6_list_all_users [⟨1, "a@x.io", "A"⟩] none (some 7) ⟨1, "a@x.io", "A"⟩).1,
   (C6_list_all_users [⟨1, "a@x.io", "A"⟩] none (some 7) ⟨1, "a@x.io", "A"⟩).2.2 (by decide)⟩

/-- Claim C7: an owner's image upload with a valid image stores it and
answers 200 with the updated representation, touching no other row; an
invalid payload answers 400 with the serializer's error body and leaves
the table unchanged. -/
theorem C7_upload_image :
    ∀ (db : List Recipe) (u pk : Nat) (data : UploadData) (recipe : Recipe),
      (RecipeViewSet.get_queryset db u).find? (fun r => r.id == pk) = some recipe →
      (data.isImage = true →
        (RecipeViewSet.upload_image db u pk data).1 =
          UploadResp.ok { recipe with image := some data.content } ∧
        { recipe with image := some data.content } ∈ (RecipeViewSet.upload_image db u pk data).2 ∧
        ∀ w ∈ db, w.id ≠ recipe.id → w ∈ (RecipeViewSet.upload_image db u pk data).2) ∧
      (data.isImage = false →
        (RecipeViewSet.upload_image db u pk data).1 =
          UploadResp.invalid ["image: Upload a valid image."] ∧
        (RecipeViewSet.upload_image db u pk data).2 = db) := by
  intro db u pk data recipe hfind
  have hmem : recipe ∈ db := by
    have h1 := List.mem_of_find?_eq_some hfind
    rw [RecipeViewSet.get_queryset, List.mem_dedup, List.mem_filter] at h1
    exact h1.1
  constructor
  · intro himg
    refine ⟨by simp [RecipeViewSet.upload_image, hfind, himg], ?_, ?_⟩
    · simp only [RecipeViewSet.upload_image, hfind, himg, if_true]
      refine List.mem_map.mpr ⟨recipe, hmem, ?_⟩
      simp
    · intro w hw hwid
      simp only [RecipeViewSet.upload_image, hfind, himg, if_true]
      refine List.mem_map.mpr ⟨w, hw, ?_⟩
      simp [hwid]
  · intro himg
    exact ⟨by simp [RecipeViewSet.upload_image, hfind, himg], by simp [RecipeViewSet.upload_image, hfind, himg]⟩

/-- Closed check of the image-upload theorem on a one-recipe table: a valid
image is stored and echoed, an invalid payload changes nothing. -/
theorem C7_witness :
    (RecipeViewSet.upload_image [⟨1, 1, "pie", "d", 20, 9, none, [], []⟩] 1 1
        ⟨"pie.jpg", true⟩).1 =
      UploadResp.ok ⟨1, 1, "pie", "d", 20, 9, some "pie.jpg", [], []⟩ ∧
    (RecipeViewSet.upload_image [⟨1, 1, "pie", "d", 20, 9, none, [], []⟩] 1 1
        ⟨"nope.txt", false⟩).2 =
      [⟨1, 1, "pie", "d", 20, 9, none, [], []⟩] := by
  constructor
  · exact ((C7_upload_image [⟨1, 1, "pie", "d", 20, 9, none, [], []⟩] 1 1
      ⟨"pie.jpg", true⟩ ⟨1, 1, "pie", "d", 20, 9, none, [], []⟩ (by decide)).1 rfl).1
  · exact ((C7_upload_image [⟨1, 1, "pie", "d", 20, 9, none, [], []⟩] 1 1
      ⟨"nope.txt", false⟩ ⟨1, 1, "pie", "d", 20, 9, none, [], []⟩ (by decide)).2 rfl).2

/-- Claim C8: a me request answers with the authenticated principal's own
record, never another user's (accounts with distinct emails have distinct
representations), and a PUT or PATCH through the me endpoints writes only
the principal's row. -/
theorem C8_me_is_principal :
    ∀ (db : List User) (u v w : User) (d : UserData) (part : Bool),
      (ManageUserView.getSelf u).2 = UserSerializer.fields u ∧
      (u.email ≠ v.email → (ManageUserView.getSelf u).2 ≠ UserSerializer.fields v) ∧
      (w ∈ db → w.id ≠ u.id → w ∈ (ManageUserView.updateSelf db u d part).2) := by
  intro db u v w d part
  refine ⟨rfl, ?_, ?_⟩
  · intro hne heq
    exact hne (congrArg Prod.fst heq)
  · intro hw hne
    rw [ManageUserView.updateSelf]
    by_cases hv : userDataValid d part = true
    · simp only [hv, if_true]
      refine List.mem_map.mpr ⟨w, hw, ?_⟩
      simp [hne]
    · simp only [hv, if_false]
      exact hw

/-- Closed check of the me-endpoint theorem: user 1's me response is their
own record and differs from user 2's record, and an update through me
leaves user 2's row in place. -/
theorem C8_witness :
    (ManageUserView.getSelf ⟨1, "u@x.io", "U"⟩).2 ≠
      UserSerializer.fields ⟨2, "v@x.io", "V"⟩ ∧
    (⟨2, "v@x.io", "V"⟩ : User) ∈
      (ManageUserView.updateSelf [⟨1, "u@x.io", "U"⟩, ⟨2, "v@x.io", "V"⟩]
        ⟨1, "u@x.io", "U"⟩ ⟨some "n@x.io", some "N"⟩ false).2 :=
  ⟨(C8_me_is_principal [] ⟨1, "u@x.io", "U"⟩ ⟨2, "v@x.io", "V"⟩ ⟨2, "v@x.io", "V"⟩
      ⟨none, none⟩ false).2.1 (by decide),
   (C8_me_is_principal [⟨1, "u@x.io", "U"⟩, ⟨2, "v@x.io", "V"⟩] ⟨1, "u@x.io", "U"⟩
      ⟨2, "v@x.io", "V"⟩ ⟨2, "v@x.io", "V"⟩ ⟨some "n@x.io", some "N"⟩ false).2.2
      (by decide) (by decide)⟩
